import Mathlib

/-!
Verification of the block-gas-limit policy of `crates/ethereum/payload/src/config.rs`
and the OP `eth_` RPC facade of `crates/optimism/rpc/src/eth/mod.rs`, shallowly
embedded in Lean. Rust `u64` values are modelled as `Nat`, with the `u64` range
made explicit wherever overflow matters.
-/

/-- Largest value representable in a Rust `u64`. -/
def U64_MAX : Nat := 2 ^ 64 - 1

/-- Protocol constant bounding the per-block gas-limit drift
(`reth_primitives_traits::constants::GAS_LIMIT_BOUND_DIVISOR`, value 1024;
consistent with the spec's worked scenarios, where `30_000_000` yields
`delta = 29_295`). -/
def GAS_LIMIT_BOUND_DIVISOR : Nat := 1024

/-- Default desired gas limit (`alloy_eips::eip1559::ETHEREUM_BLOCK_GAS_LIMIT_30M`). -/
def ETHEREUM_BLOCK_GAS_LIMIT_30M : Nat := 30000000

/-- Settings for the Ethereum builder (`EthereumBuilderConfig`). -/
structure EthereumBuilderConfig where
  desired_gas_limit : Nat
  await_payload_on_missing : Bool

/-- `EthereumBuilderConfig::new`. -/
def EthereumBuilderConfig.new : EthereumBuilderConfig :=
  { desired_gas_limit := ETHEREUM_BLOCK_GAS_LIMIT_30M, await_payload_on_missing := true }

/-- `EthereumBuilderConfig::with_gas_limit`. -/
def EthereumBuilderConfig.with_gas_limit (self : EthereumBuilderConfig)
    (desired_gas_limit : Nat) : EthereumBuilderConfig :=
  { self with desired_gas_limit := desired_gas_limit }

/-- `EthereumBuilderConfig::with_await_payload_on_missing`. -/
def EthereumBuilderConfig.with_await_payload_on_missing (self : EthereumBuilderConfig)
    (await_payload_on_missing : Bool) : EthereumBuilderConfig :=
  { self with await_payload_on_missing := await_payload_on_missing }

/-- The `delta` computed on the first line of `calculate_block_gas_limit`:
`(parent_gas_limit / GAS_LIMIT_BOUND_DIVISOR).saturating_sub(1)`. `Nat`
subtraction is truncated, which matches Rust's `saturating_sub` exactly. -/
def gasLimitDelta (parent_gas_limit : Nat) : Nat :=
  parent_gas_limit / GAS_LIMIT_BOUND_DIVISOR - 1

/-- `calculate_block_gas_limit(parent_gas_limit, desired_gas_limit)`.

The source computes, in `u64` arithmetic:
`min_gas_limit = parent_gas_limit - delta` (never underflows, since
`delta ≤ parent_gas_limit / 1024 ≤ parent_gas_limit`), then
`max_gas_limit = parent_gas_limit + delta`, then
`desired_gas_limit.clamp(min_gas_limit, max_gas_limit)`.

The addition `parent_gas_limit + delta` can exceed `u64::MAX`. When it does, the
Rust code panics under both compilation modes: with overflow checks the addition
itself panics, and with wrapping arithmetic the wrapped `max_gas_limit` falls
strictly below `min_gas_limit` (the wrapped value is at most `delta - 1`, while
`min_gas_limit ≥ parent_gas_limit - delta > delta - 1`), so `Ord::clamp`'s
`assert!(min <= max)` panics. The panic is modelled as `none`; the non-panicking
result `clamp(d, lo, hi) = max lo (min d hi)` is `some`. -/
def calculate_block_gas_limit (parent_gas_limit desired_gas_limit : Nat) : Option Nat :=
  let delta := gasLimitDelta parent_gas_limit
  let min_gas_limit := parent_gas_limit - delta
  let max_gas_limit := parent_gas_limit + delta
  if max_gas_limit ≤ U64_MAX then
    some (max min_gas_limit (min desired_gas_limit max_gas_limit))
  else
    none

/-- `EthereumBuilderConfig::gas_limit`. -/
def EthereumBuilderConfig.gas_limit (self : EthereumBuilderConfig)
    (parent_gas_limit : Nat) : Option Nat :=
  calculate_block_gas_limit parent_gas_limit self.desired_gas_limit

/-- Claim C1 (amended): for every `parent_gas_limit > 0` whose upper bound
`parent_gas_limit + delta` still fits in `u64`, and every `desired_gas_limit`,
`calculate_block_gas_limit` returns a value within
`[parent_gas_limit - delta, parent_gas_limit + delta]`, where
`delta = floor(parent_gas_limit / GAS_LIMIT_BOUND_DIVISOR) - 1` saturating at 0;
and `EthereumBuilderConfig::gas_limit` is exactly this function applied to the
configured desired gas limit. -/
theorem calculate_block_gas_limit_bounds (parent_gas_limit desired_gas_limit : Nat)
    (hpos : 0 < parent_gas_limit)
    (hof : parent_gas_limit + gasLimitDelta parent_gas_limit ≤ U64_MAX) :
    (∃ v, calculate_block_gas_limit parent_gas_limit desired_gas_limit = some v ∧
        parent_gas_limit - gasLimitDelta parent_gas_limit ≤ v ∧
        v ≤ parent_gas_limit + gasLimitDelta parent_gas_limit) ∧
    ∀ cfg : EthereumBuilderConfig,
        cfg.gas_limit parent_gas_limit =
          calculate_block_gas_limit parent_gas_limit cfg.desired_gas_limit := by
  constructor
  · refine ⟨max (parent_gas_limit - gasLimitDelta parent_gas_limit)
      (min desired_gas_limit (parent_gas_limit + gasLimitDelta parent_gas_limit)),
      ?_, ?_, ?_⟩
    · simp only [calculate_block_gas_limit]
      rw [if_pos hof]
    · exact le_max_left _ _
    · exact max_le (le_trans (Nat.sub_le _ _) (Nat.le_add_right _ _)) (min_le_right _ _)
  · intro cfg
    rfl

/-- Witness for C1 at `parent_gas_limit = 30_000_000`, `desired = 40_000_000`. -/
theorem calculate_block_gas_limit_bounds_witness :
    (0 < 30000000 ∧ 30000000 + gasLimitDelta 30000000 ≤ U64_MAX) ∧
    ((∃ v, calculate_block_gas_limit 30000000 40000000 = some v ∧
        30000000 - gasLimitDelta 30000000 ≤ v ∧
        v ≤ 30000000 + gasLimitDelta 30000000) ∧
      ∀ cfg : EthereumBuilderConfig,
        cfg.gas_limit 30000000 = calculate_block_gas_limit 30000000 cfg.desired_gas_limit) :=
  ⟨⟨by decide, by decide⟩,
    calculate_block_gas_limit_bounds 30000000 40000000 (by decide) (by decide)⟩

/-- Counterexample to claim C1 as stated: at `parent_gas_limit = u64::MAX > 0`
the addition `parent_gas_limit + delta` overflows `u64`, the code panics
(modelled as `none`), and no value in the claimed interval is returned. -/
theorem calculate_block_gas_limit_bounds_cex :
    0 < U64_MAX ∧ calculate_block_gas_limit U64_MAX 0 = none := by
  constructor
  · decide
  · rfl

/-- Claim C7 (amended): `calculate_block_gas_limit` is a pure function that,
for all `u64` inputs such that `parent_gas_limit + delta` does not exceed
`u64::MAX`, returns a `u64` result without panicking; for larger parents the
`u64` addition overflows and the computation panics. -/
theorem calculate_block_gas_limit_total (parent_gas_limit desired_gas_limit : Nat)
    (hp : parent_gas_limit ≤ U64_MAX) (hd : desired_gas_limit ≤ U64_MAX)
    (hof : parent_gas_limit + gasLimitDelta parent_gas_limit ≤ U64_MAX) :
    ∃ v, calculate_block_gas_limit parent_gas_limit desired_gas_limit = some v ∧
      v ≤ U64_MAX := by
  refine ⟨max (parent_gas_limit - gasLimitDelta parent_gas_limit)
      (min desired_gas_limit (parent_gas_limit + gasLimitDelta parent_gas_limit)), ?_, ?_⟩
  · simp only [calculate_block_gas_limit]
    rw [if_pos hof]
  · exact max_le (le_trans (Nat.sub_le _ _) hp) (le_trans (min_le_right _ _) hof)

/-- Witness for C7 at `parent_gas_limit = 30_000_000`, `desired = 0`. -/
theorem calculate_block_gas_limit_total_witness :
    (30000000 ≤ U64_MAX ∧ 0 ≤ U64_MAX ∧ 30000000 + gasLimitDelta 30000000 ≤ U64_MAX) ∧
    ∃ v, calculate_block_gas_limit 30000000 0 = some v ∧ v ≤ U64_MAX :=
  ⟨⟨by decide, by decide, by decide⟩,
    calculate_block_gas_limit_total 30000000 0 (by decide) (by decide) (by decide)⟩

/-- Counterexample to claim C7 as stated: at `parent_gas_limit = u64::MAX`
(a value near `u64::MAX`, explicitly included by the claim) the computation
panics — with overflow checks the addition `parent + delta` overflows, and with
wrapping arithmetic `min_gas_limit > max_gas_limit` so `clamp` asserts —
modelled as `none`, so the function does not return a `u64` result. -/
theorem calculate_block_gas_limit_total_cex :
    calculate_block_gas_limit U64_MAX U64_MAX = none := by
  rfl

/-- Claim C9 (amended): for every `parent_gas_limit` whose upper bound
`parent_gas_limit + delta` still fits in `u64`, and every `desired_gas_limit`
already lying within `[parent_gas_limit - delta, parent_gas_limit + delta]`,
the clamp is the identity: `calculate_block_gas_limit` returns
`desired_gas_limit` unchanged. -/
theorem calculate_block_gas_limit_idem (parent_gas_limit desired_gas_limit : Nat)
    (hof : parent_gas_limit + gasLimitDelta parent_gas_limit ≤ U64_MAX)
    (hmin : parent_gas_limit - gasLimitDelta parent_gas_limit ≤ desired_gas_limit)
    (hmax : desired_gas_limit ≤ parent_gas_limit + gasLimitDelta parent_gas_limit) :
    calculate_block_gas_limit parent_gas_limit desired_gas_limit = some desired_gas_limit := by
  simp only [calculate_block_gas_limit]
  rw [if_pos hof, min_eq_left hmax, max_eq_right hmin]

/-- Witness for C9 at `parent_gas_limit = 30_000_000`, `desired = 29_999_999`. -/
theorem calculate_block_gas_limit_idem_witness :
    (30000000 + gasLimitDelta 30000000 ≤ U64_MAX ∧
      30000000 - gasLimitDelta 30000000 ≤ 29999999 ∧
      29999999 ≤ 30000000 + gasLimitDelta 30000000) ∧
    calculate_block_gas_limit 30000000 29999999 = some 29999999 :=
  ⟨⟨by decide, by decide, by decide⟩,
    calculate_block_gas_limit_idem 30000000 29999999 (by decide) (by decide) (by decide)⟩

/-- Counterexample to claim C9 as stated: `desired = u64::MAX` lies within
`[parent - delta, parent + delta]` for `parent = u64::MAX` (delta as defined by
the policy), yet the function panics instead of returning it unchanged, because
`parent + delta` overflows `u64`. -/
theorem calculate_block_gas_limit_idem_cex :
    (U64_MAX - gasLimitDelta U64_MAX ≤ U64_MAX ∧
      U64_MAX ≤ U64_MAX + gasLimitDelta U64_MAX) ∧
    calculate_block_gas_limit U64_MAX U64_MAX ≠ some U64_MAX := by
  exact ⟨⟨Nat.sub_le _ _, Nat.le_add_right _ _⟩, by decide⟩

/-- Claim C8: the three worked scenarios of the spec, with
`delta = 29_295` at `parent_gas_limit = 30_000_000`. -/
theorem calculate_block_gas_limit_scenarios :
    gasLimitDelta 30000000 = 29295 ∧
    calculate_block_gas_limit 30000000 30000000 = some 30000000 ∧
    calculate_block_gas_limit 30000000 40000000 = some 30029295 ∧
    calculate_block_gas_limit 30000000 1 = some 29970705 := by
  refine ⟨rfl, rfl, rfl, rfl⟩

/-! The OP `eth_` RPC facade of `crates/optimism/rpc/src/eth/mod.rs`. Block
hashes and addresses are modelled as `Nat`; the provider's error type is an
arbitrary type `ε` (the routing logic treats every error alike). -/

/-- `alloy_eips::RpcBlockHash`: a block hash plus the `require_canonical`
flag. Only `block_hash` is read by the routing logic. -/
structure RpcBlockHash where
  block_hash : Nat
  require_canonical : Option Bool

/-- `alloy_eips::BlockNumberOrTag`: a concrete block number or a symbolic tag. -/
inductive BlockNumberOrTag where
  | number (n : Nat)
  | latest
  | finalized
  | safe
  | earliest
  | pending

/-- `BlockNumberOrTag::as_number`: `Some` only for the `Number` variant. -/
def BlockNumberOrTag.as_number : BlockNumberOrTag → Option Nat
  | .number n => some n
  | _ => none

/-- `alloy_eips::BlockId`: a block identified by hash or by number/tag. -/
inductive BlockId where
  | hash (h : RpcBlockHash)
  | number (t : BlockNumberOrTag)

/-- Block header; only the `number` accessor is used by the routing logic. -/
structure Header where
  number : Nat

/-- A block; `header()` accessor modelled as a field. -/
structure Block where
  header : Header

/-- Modelled from the spec: the provider capability (external to the sources
under verification), of which the routing logic uses only the block-by-hash
lookup, which may fail with a provider error (`ε`) or find nothing. -/
structure Provider (ε : Type) where
  block_by_hash : Nat → Except ε (Option Block)

/-- Modelled from the spec: the EVM-configuration handle (bound
`Evm: EthChainSpec + OpHardforks` in the source), exposing whether the chain
identifies as the rollup (Optimism) variant and whether the Bedrock hardfork
is active at a given block number. -/
structure EvmConfig where
  is_optimism : Bool
  is_bedrock_active_at_block : Nat → Bool

/-- Modelled from the spec: the backend aggregate `EthApiInner` from
`reth_rpc` (spec section 3, ApiBackend). Of its attributes, only the provider
and EVM-config handles are observed by the logic under verification; the
caches, oracle, task pools and signer registry are not modelled. -/
structure EthApiInner (ε : Type) where
  provider : Provider ε
  evm_config : EvmConfig

/-- Modelled from the spec: `SequencerClient`, an optional handle to a
transaction-forwarding endpoint, identified by its target URL. -/
structure SequencerClient where
  url : String

/-- Modelled from the spec: `jsonrpsee` HTTP client, characterised by the URL
it was built against and its configured request timeout. -/
structure HttpClient where
  url : String
  request_timeout_secs : Option Nat

/-- Modelled from the spec: `jsonrpsee::HttpClientBuilder`; only the request
timeout is configured by the source. -/
structure HttpClientBuilder where
  request_timeout_secs : Option Nat

/-- `HttpClientBuilder::default()`: no request timeout configured yet. -/
def HttpClientBuilder.default : HttpClientBuilder :=
  { request_timeout_secs := none }

/-- `HttpClientBuilder::request_timeout`. -/
def HttpClientBuilder.request_timeout (self : HttpClientBuilder) (secs : Nat) :
    HttpClientBuilder :=
  { self with request_timeout_secs := some secs }

/-- Modelled from the spec: `HttpClientBuilder::build(url)` binds the URL and
the configured timeout. URL validation performed inside the external library is
not specified by the spec and is not modelled; the spec notes only that the
source's build step is unchecked. -/
def HttpClientBuilder.build (self : HttpClientBuilder) (url : String) : HttpClient :=
  { url := url, request_timeout_secs := self.request_timeout_secs }

/-- `OpEthApiInner`: backend plus optional sequencer client and optional
historical RPC provider. -/
structure OpEthApiInner (ε : Type) where
  eth_api : EthApiInner ε
  sequencer_client : Option SequencerClient
  historical_rpc_provider : Option HttpClient

/-- `OpEthApi`: the facade, a shared handle to `OpEthApiInner` (the `Arc` is
immaterial to the embedding). -/
structure OpEthApi (ε : Type) where
  inner : OpEthApiInner ε

/-- `OpEthApi::eth_api`, via `OpEthApiInner::eth_api`. -/
def OpEthApi.eth_api {ε : Type} (self : OpEthApi ε) : EthApiInner ε :=
  self.inner.eth_api

/-- `OpEthApi::sequencer_client`, via `OpEthApiInner::sequencer_client`. -/
def OpEthApi.sequencer_client {ε : Type} (self : OpEthApi ε) : Option SequencerClient :=
  self.inner.sequencer_client

/-- `OpEthApi::historical_rpc_provider`, via
`OpEthApiInner::historical_rpc_provider`. -/
def OpEthApi.historical_rpc_provider {ε : Type} (self : OpEthApi ε) : Option HttpClient :=
  self.inner.historical_rpc_provider

/-- The block-number resolution performed inside `is_optimism_pre_bedrock`
(the `let block_number = match block_id { ... }` with its early
`return false` arms, extracted as a partial resolution returning `none`
exactly where the source returns `false` early): a hash is looked up via
`provider.block_by_hash`, succeeding only on `Ok(Some(block))`; a number/tag
resolves through `as_number`. -/
def resolve_block_number {ε : Type} (provider : Provider ε) (block_id : BlockId) :
    Option Nat :=
  match block_id with
  | .hash hash =>
    match provider.block_by_hash hash.block_hash with
    | .ok (some block) => some block.header.number
    | _ => none
  | .number block_num_or_tag => block_num_or_tag.as_number

/-- `OpEthApi::is_optimism_pre_bedrock`: resolve the block number (failing
open to `false`), then report `config.is_optimism() &&
!config.is_bedrock_active_at_block(block_number)`. -/
def OpEthApi.is_optimism_pre_bedrock {ε : Type} (self : OpEthApi ε)
    (block_id : BlockId) : Bool :=
  let provider := self.eth_api.provider
  match resolve_block_number provider block_id with
  | none => false
  | some block_number =>
    let config := self.eth_api.evm_config
    config.is_optimism && !(config.is_bedrock_active_at_block block_number)

/-- `<OpEthApi as EthState>::get_code`. The source matches on `block_id` and,
for a pre-Bedrock block with a configured historical provider, reaches a branch
whose proxy request (5 s timeout, fallback to `Bytes::default`) exists only as
commented-out code, and whose `else` arm holds only a `// TODO: Return error`
comment; both arms are no-ops, and control falls through unconditionally to
`LoadState::get_code`. `LoadState::get_code` is external; it is passed in as
`load_state_get_code`, returning an arbitrary result type `ρ`. -/
def OpEthApi.get_code {ε ρ : Type} (self : OpEthApi ε)
    (load_state_get_code : Nat → Option BlockId → ρ)
    (address : Nat) (block_id : Option BlockId) : ρ :=
  let routing : Unit :=
    match block_id with
    | some bid =>
      if self.is_optimism_pre_bedrock bid then
        if (self.historical_rpc_provider).isSome then
          -- historical proxy request: commented out in the source
          ()
        else
          -- source holds only a TODO comment here
          ()
      else ()
    | none => ()
  let _ := routing
  load_state_get_code address block_id

/-- `OpEthApiBuilder`: staged constructor holding the optional sequencer
client. -/
structure OpEthApiBuilder where
  sequencer_client : Option SequencerClient

/-- `OpEthApiBuilder::new`. -/
def OpEthApiBuilder.new : OpEthApiBuilder :=
  { sequencer_client := none }

/-- `OpEthApiBuilder::with_sequencer`. -/
def OpEthApiBuilder.with_sequencer (self : OpEthApiBuilder)
    (sequencer_client : Option SequencerClient) : OpEthApiBuilder :=
  { self with sequencer_client := sequencer_client }

/-- Modelled from the spec: the build context `EthApiBuilderCtx` (external to
the sources under verification); of its fields, only the provider and
EVM-config handles flow into the state observed by the claims. -/
structure EthApiBuilderCtx (ε : Type) where
  provider : Provider ε
  evm_config : EvmConfig

/-- Modelled from the spec: `EthApiInner::new` from `reth_rpc` assembles the
backend from the context's capability handles (the caches, oracle, task pools
and limits it also receives are not modelled, as no claim observes them). -/
def EthApiInner.new {ε : Type} (provider : Provider ε) (evm_config : EvmConfig) :
    EthApiInner ε :=
  { provider := provider, evm_config := evm_config }

/-- `OpEthApiBuilder::build`: assembles the backend, then unconditionally
builds a historical RPC client against the hardcoded empty URL with a 60 s
request timeout, and stores it as `Some(...)` together with the builder's
sequencer client. -/
def OpEthApiBuilder.build {ε : Type} (self : OpEthApiBuilder)
    (ctx : EthApiBuilderCtx ε) : OpEthApi ε :=
  let eth_api := EthApiInner.new ctx.provider ctx.evm_config
  let historical_rpc_url := ""
  let historical_rpc_client :=
    (HttpClientBuilder.default.request_timeout 60).build historical_rpc_url
  { inner :=
    { eth_api := eth_api
      sequencer_client := self.sequencer_client
      historical_rpc_provider := some historical_rpc_client } }

/-- A provider whose block-by-hash lookup always fails with a provider error. -/
def failProvider : Provider Unit :=
  { block_by_hash := fun _ => .error () }

/-- A provider that resolves every hash to a block at height 5. -/
def okProvider : Provider Unit :=
  { block_by_hash := fun _ => .ok (some { header := { number := 5 } }) }

/-- A rollup (Optimism) chain configuration whose Bedrock fork activates at
block 10. -/
def opConfig : EvmConfig :=
  { is_optimism := true, is_bedrock_active_at_block := fun n => decide (10 ≤ n) }

/-- A facade over `failProvider` and `opConfig`, with no sequencer and no
historical provider. -/
def failApi : OpEthApi Unit :=
  { inner :=
    { eth_api := { provider := failProvider, evm_config := opConfig }
      sequencer_client := none
      historical_rpc_provider := none } }

/-- A facade over `okProvider` and `opConfig`, with no sequencer and no
historical provider. -/
def resolvedApi : OpEthApi Unit :=
  { inner :=
    { eth_api := { provider := okProvider, evm_config := opConfig }
      sequencer_client := none
      historical_rpc_provider := none } }

/-- A facade over `okProvider` and `opConfig` with a configured historical
RPC provider: every block it resolves (height 5) is pre-Bedrock. -/
def preBedrockApi : OpEthApi Unit :=
  { inner :=
    { eth_api := { provider := okProvider, evm_config := opConfig }
      sequencer_client := none
      historical_rpc_provider :=
        some { url := "http://archive.example", request_timeout_secs := some 60 } } }

/-- Claim C4: whenever the block number cannot be resolved — the provider's
hash lookup returns an error or not-found, or the identifier is a symbolic tag
with no concrete number (exactly the cases where `resolve_block_number` is
`none`) — `is_optimism_pre_bedrock` returns `false`, for every facade and
hence every chain configuration; being `Bool`-valued and total, it propagates
no provider error. -/
theorem is_optimism_pre_bedrock_fail_open {ε : Type} (api : OpEthApi ε)
    (block_id : BlockId)
    (h : resolve_block_number api.eth_api.provider block_id = none) :
    api.is_optimism_pre_bedrock block_id = false := by
  simp only [OpEthApi.is_optimism_pre_bedrock]
  rw [h]

/-- Witness for C4: a hash lookup failing with a provider error. -/
theorem is_optimism_pre_bedrock_fail_open_witness :
    resolve_block_number failApi.eth_api.provider
        (BlockId.hash { block_hash := 0, require_canonical := none }) = none ∧
    failApi.is_optimism_pre_bedrock
        (BlockId.hash { block_hash := 0, require_canonical := none }) = false :=
  ⟨rfl, is_optimism_pre_bedrock_fail_open failApi
    (BlockId.hash { block_hash := 0, require_canonical := none }) rfl⟩

/-- Claim C5: whenever the block number resolves to a concrete height `h`,
`is_optimism_pre_bedrock` equals `is_optimism && !is_bedrock_active_at_block h`
— in particular it is `true` iff the chain is the rollup variant and Bedrock is
not active at `h`, and for a non-rollup chain it is `false` at every height. -/
theorem is_optimism_pre_bedrock_resolved {ε : Type} (api : OpEthApi ε)
    (block_id : BlockId) (h : Nat)
    (hres : resolve_block_number api.eth_api.provider block_id = some h) :
    api.is_optimism_pre_bedrock block_id =
      (api.eth_api.evm_config.is_optimism &&
        !(api.eth_api.evm_config.is_bedrock_active_at_block h)) ∧
    (api.eth_api.evm_config.is_optimism = false →
      api.is_optimism_pre_bedrock block_id = false) := by
  have hmain : api.is_optimism_pre_bedrock block_id =
      (api.eth_api.evm_config.is_optimism &&
        !(api.eth_api.evm_config.is_bedrock_active_at_block h)) := by
    simp only [OpEthApi.is_optimism_pre_bedrock]
    rw [hres]
  refine ⟨hmain, fun hopt => ?_⟩
  rw [hmain, hopt]
  rfl

/-- Witness for C5: block number 5 on a rollup chain with Bedrock at 10. -/
theorem is_optimism_pre_bedrock_resolved_witness :
    resolve_block_number resolvedApi.eth_api.provider
        (BlockId.number (BlockNumberOrTag.number 5)) = some 5 ∧
    (resolvedApi.is_optimism_pre_bedrock (BlockId.number (BlockNumberOrTag.number 5)) =
        (resolvedApi.eth_api.evm_config.is_optimism &&
          !(resolvedApi.eth_api.evm_config.is_bedrock_active_at_block 5)) ∧
      (resolvedApi.eth_api.evm_config.is_optimism = false →
        resolvedApi.is_optimism_pre_bedrock
          (BlockId.number (BlockNumberOrTag.number 5)) = false)) :=
  ⟨rfl, is_optimism_pre_bedrock_resolved resolvedApi
    (BlockId.number (BlockNumberOrTag.number 5)) 5 rfl⟩

/-- Claim C6: the builder threads the sequencer client through unchanged —
built without `with_sequencer` (or with `with_sequencer none`) the facade's
`sequencer_client()` is `none`; built with `with_sequencer (some target)` it
is `some target`, for exactly that target. -/
theorem builder_sequencer_threading {ε : Type} (ctx : EthApiBuilderCtx ε)
    (target : SequencerClient) :
    (OpEthApiBuilder.new.build ctx).sequencer_client = none ∧
    ((OpEthApiBuilder.new.with_sequencer none).build ctx).sequencer_client = none ∧
    ((OpEthApiBuilder.new.with_sequencer (some target)).build ctx).sequencer_client =
      some target :=
  ⟨rfl, rfl, rfl⟩

/-- Claim C3, evaluated on the code: for every builder and build context —
including one with no historical-endpoint URL configured (the builder accepts
no URL at all) — `build` unconditionally constructs a historical client
against the hardcoded empty URL with a 60 s request timeout and stores it as
`Some(...)`, so `historical_rpc_provider()` is never `none`. -/
theorem build_always_constructs_historical {ε : Type} (b : OpEthApiBuilder)
    (ctx : EthApiBuilderCtx ε) :
    (b.build ctx).historical_rpc_provider =
      some { url := "", request_timeout_secs := some 60 } :=
  rfl

/-- Claim C2, evaluated on the code at a failing input: on a rollup chain with
Bedrock at block 10, block 5 is pre-Bedrock and a historical provider is
configured, yet `get_code` issues no proxy request — the branch is a no-op
(the proxy is commented out in the source) and the call returns exactly
`LoadState::get_code(address, block_id)`. -/
theorem get_code_ignores_historical_route {ρ : Type}
    (load_state_get_code : Nat → Option BlockId → ρ) (address : Nat) :
    preBedrockApi.is_optimism_pre_bedrock
        (BlockId.number (BlockNumberOrTag.number 5)) = true ∧
    (preBedrockApi.historical_rpc_provider).isSome = true ∧
    preBedrockApi.get_code load_state_get_code address
        (some (BlockId.number (BlockNumberOrTag.number 5))) =
      load_state_get_code address (some (BlockId.number (BlockNumberOrTag.number 5))) :=
  ⟨rfl, rfl, rfl⟩

/-- Claim C10: with `block_id = None`, `get_code` takes the `_ => {}` arm —
the pre-fork router and historical endpoint are never consulted — and returns
exactly `LoadState::get_code(address, None)`, for every facade. -/
theorem get_code_none_delegates {ε ρ : Type} (api : OpEthApi ε)
    (load_state_get_code : Nat → Option BlockId → ρ) (address : Nat) :
    api.get_code load_state_get_code address none = load_state_get_code address none :=
  rfl
